import Mathlib

/-!
Shallow embedding of `src/trainer.py` (VoxSRC-20 speaker-recognition trainer).

The script is straight-line glue over PyTorch: argument parsing, a dataset /
criterion dispatch on two string-valued configuration fields, an optional
model-checkpoint restore, and an epoch/batch training loop that logs scalars
and saves checkpoint files.  The embedding represents

* tensors of shape (B, d) as `List (List Int)` and integer label vectors of
  shape (B,) as `List Nat`;
* the external library components (dataset contents produced from the CSV
  manifest, `transform`, `UniversalSRModel`, the loss modules' forward
  functions, the shuffled batch stream of the `DataLoader`) as oracle fields
  of an `Env` record, since their internals live outside `trainer.py`;
* every observable action of the script as an `Event`, so that ordering,
  logging and file-writing claims are statements about the produced trace;
* Python exceptions (`ValueError` from the two explicit dispatch checks,
  `NameError` from reading an unbound local) as `Except PyError`.
-/

/-- Compute device chosen at startup (`trainer.py` lines 23-26). -/
inductive Device where
  | cuda
  | cpu
  deriving DecidableEq, Repr

/-- The parsed command-line configuration (`args = parser.parse_args()`).
Only the fields `trainer.py` reads appear.  Real-valued hyperparameters
(margins, scales, learning rates) are opaque pass-through values, embedded as
`Int`; `num_spkr` is `Option Nat` because the external argument definition
module may or may not supply a value for it (`none` = Python `None`);
`model_path` uses `""` for a falsy (absent) path. -/
structure Args where
  criterion_type : String
  criterion : String
  csv_path : String
  win_length : Nat
  hop_length : Nat
  num_frames : Nat
  spk_samples : Nat
  batch_size : Nat
  num_workers : Nat
  num_spkr : Option Nat
  repr_dim : Nat
  m : Int
  s : Int
  init_m : Int
  init_s : Int
  lr : Int
  criterion_lr : Int
  num_epochs : Nat
  model_path : String
  logdir : String
  save_model : Bool
  deriving DecidableEq, Repr

/-- A loss object as constructed by the criterion dispatch
(`trainer.py` lines 72-79): the constructor selected and the arguments it
received. -/
inductive Criterion where
  | cosFace (repr_dim : Nat) (num_spkr : Option Nat) (m s : Int)
  | psge2e (repr_dim : Nat) (num_spkr : Option Nat) (init_m init_s : Int)
  | prototypical (repr_dim : Nat) (num_spkr : Option Nat)
  deriving DecidableEq, Repr

/-- One mini-batch as yielded by the `DataLoader`: a batch `x` of input
tensors and a batch `target` of integer speaker labels (shape (B,)). -/
structure Batch where
  x : List (List Int)
  target : List Nat
  deriving DecidableEq, Repr

/-- The external world of the script: everything `trainer.py` calls into but
does not define.  Function-valued fields are oracles for the imported library
components. -/
structure Env where
  /-- Modelled from the spec: `ClassificationVCDS` (in `data_loader.py`, not
  under `src/`) yields one sample — a pair of a feature tensor and an integer
  speaker label — per index of the CSV manifest, so `len(ds)` is the number of
  samples.  This field is that sample list. -/
  csvSamples : List (List Int × Nat)
  /-- `torch.cuda.is_available()`. -/
  cudaAvailable : Bool
  /-- The shuffled mini-batches the `DataLoader` yields in epoch `e`
  (shuffling is nondeterministic, so the per-epoch batch streams are an
  oracle).  `DataLoader` never yields an empty batch. -/
  batches : Nat → List Batch
  /-- The feature extractor `transform(**kwargs)` applied to a batch. -/
  featF : List (List Int) → List (List Int)
  /-- The model forward pass `model(x)`; preserves the batch dimension. -/
  modelF : List (List Int) → List (List Int)
  /-- The criterion forward pass `criterion(y, target)`, returning
  `(scores, loss)`; the loss value is opaque, embedded as `Int`. -/
  critF : Criterion → List (List Int) → List Nat → List (List Int) × Int

/-- Observable actions of the script, in program order. -/
inductive Event where
  | constructDataset (kind : String)
  | constructDataLoader
  | constructFeatureExtractor
  | constructModel
  | loadModelState (path : String)
  | loadCriterionState (path : String)
  | loadOptimizerState (path : String)
  | constructLog
  | constructCriterion
  | constructOptimizer
  | toDevice (tensor : String)
  | featureExtract
  | forward
  | computeLoss
  | logScalar (tag : String) (value : Rat) (step : Nat)
  | zeroGrad
  | backward
  | optimStep
  | saveFile (name : String)
  deriving DecidableEq, Repr

/-- Python exceptions the embedded code can raise. -/
inductive PyError where
  | valueError (msg : String)
  | nameError (name : String)
  deriving DecidableEq, Repr

/-- State established by the startup section of the script
(`trainer.py` lines 16-88), before the training loop. -/
structure StartupState where
  device : Device
  /-- The configuration after startup (line 36 may have assigned
  `args.num_spkr`). -/
  argsFinal : Args
  criterion : Criterion
  deriving DecidableEq, Repr

/-- Startup from the `DataLoader` construction on (`trainer.py` lines 47-88):
data loader, feature extractor, model, optional checkpoint restore
(`if args.model_path:`), log writer, criterion dispatch, optimizer.
`args1` is the configuration as possibly mutated by the dataset branch. -/
def startupAfterDataset (args1 : Args) (device : Device) (dsEvents : List Event) :
    List Event × Except PyError StartupState :=
  let evs :=
    dsEvents ++ [Event.constructDataLoader, Event.constructFeatureExtractor,
      Event.constructModel] ++
    (if args1.model_path ≠ "" then [Event.loadModelState args1.model_path] else []) ++
    [Event.constructLog]
  if args1.criterion = "cosface" then
    (evs ++ [Event.constructCriterion, Event.constructOptimizer],
     Except.ok { device := device, argsFinal := args1,
                 criterion := Criterion.cosFace args1.repr_dim args1.num_spkr args1.m args1.s })
  else if args1.criterion = "psge2e" then
    (evs ++ [Event.constructCriterion, Event.constructOptimizer],
     Except.ok { device := device, argsFinal := args1,
                 criterion := Criterion.psge2e args1.repr_dim args1.num_spkr args1.init_m
                   args1.init_s })
  else if args1.criterion = "prototypical" then
    (evs ++ [Event.constructCriterion, Event.constructOptimizer],
     Except.ok { device := device, argsFinal := args1,
                 criterion := Criterion.prototypical args1.repr_dim args1.num_spkr })
  else
    (evs, Except.error (PyError.valueError "args.criterion: no valid criterion function"))

/-- The whole startup section (`trainer.py` lines 16-88).  The dataset
dispatch on `args.criterion_type` comes first; in the classification branch
line 36 overwrites `args.num_spkr` with `len(ds)`.  An unknown
`criterion_type` raises before any dataset is constructed. -/
def startup (args : Args) (env : Env) : List Event × Except PyError StartupState :=
  let device := if env.cudaAvailable then Device.cuda else Device.cpu
  if args.criterion_type = "classification" then
    startupAfterDataset { args with num_spkr := some env.csvSamples.length } device
      [Event.constructDataset "classification"]
  else if args.criterion_type = "metriclearning" then
    startupAfterDataset args device [Event.constructDataset "metriclearning"]
  else
    ([], Except.error (PyError.valueError "args.criterion-type: no valid criterion type"))

/-- Index of the first maximal element of a row, scanning left to right with
`besti`/`bestv` the best seen so far and `i` the index of the next element:
the tie-breaking of `torch.topk(1, dim=1)` (first occurrence wins). -/
def rowArgmaxAux : List Int → Nat → Nat → Int → Nat
  | [], _, besti, _ => besti
  | v :: rest, i, besti, bestv =>
      if bestv < v then rowArgmaxAux rest (i + 1) i v
      else rowArgmaxAux rest (i + 1) besti bestv

/-- Index of the first maximal element of a row (0 on an empty row). -/
def rowArgmax : List Int → Nat
  | [] => 0
  | v :: rest => rowArgmaxAux rest 1 0 v

/-- `scores.topk(1, dim=1)[1]` (`trainer.py` line 105): for a score tensor of
shape (B, C) this is the index tensor of shape (B, 1) holding each row's
top-1 class index. -/
def topk1Indices (scores : List (List Int)) : List (List Nat) :=
  scores.map (fun row => [rowArgmax row])

/-- `(preds == target).sum().item()` (`trainer.py` line 108) where `preds`
has shape (B, 1) and `target` shape (B): PyTorch broadcasts the comparison to
shape (B, B) — entry (i, j) is `preds[i][0] == target[j]` — and `.sum()`
counts the true entries. -/
def broadcastEqSum (preds : List (List Nat)) (target : List Nat) : Nat :=
  (preds.map (fun row => (target.filter (fun t => row = [t])).length)).sum

/-- The accuracy the spec describes: the count of positions `i` with
`preds[i] == target[i]` (top-1 prediction equal to the target), divided by
the batch size.  Stated from the spec's words for comparison with what the
code logs. -/
def specAccuracy (preds : List Nat) (target : List Nat) : Rat :=
  ((List.zip preds target).filter (fun pt => pt.1 = pt.2)).length / (target.length : Rat)

/-- Mutable state of the training loop: the step `counter` (line 91) and the
Python local variable `loss`, which is unbound (`none`) until some iteration
assigns it (line 103). -/
structure LoopState where
  counter : Nat
  lossVar : Option Int
  deriving DecidableEq, Repr

/-- One iteration of the inner loop (`trainer.py` lines 94-122): move `x` to
the device, feature-extract, move `target` to the device, forward pass; in
the classification branch compute the loss and log the (broadcast) accuracy;
the metric-learning branch is `pass`; then `optimizer.zero_grad()`,
`loss.backward()` — a `NameError` if `loss` was never assigned —
`optimizer.step()`, log the loss, increment the counter.  Values are
unchanged by `.to(device)`.  (If the batch were empty the Python division by
`y.size(0)` would raise; `DataLoader` batches are nonempty, and `Rat`
division by zero yields 0.) -/
def runBatch (args : Args) (env : Env) (crit : Criterion) (st : LoopState) (b : Batch) :
    List Event × Except PyError LoopState :=
  let x2 := env.featF b.x
  let y := env.modelF x2
  let evs0 := [Event.toDevice "x", Event.featureExtract, Event.toDevice "target", Event.forward]
  let branch :=
    if args.criterion_type = "classification" then
      let sl := env.critF crit y b.target
      let preds := topk1Indices sl.1
      let acc : Rat := (broadcastEqSum preds b.target : Rat) / (y.length : Rat)
      ([Event.computeLoss, Event.logScalar "acc" acc st.counter], some sl.2)
    else
      ([], st.lossVar)
  let evs1 := evs0 ++ branch.1 ++ [Event.zeroGrad]
  match branch.2 with
  | none => (evs1, Except.error (PyError.nameError "loss"))
  | some l =>
      (evs1 ++ [Event.backward, Event.optimStep, Event.logScalar "loss" (l : Rat) st.counter],
       Except.ok { counter := st.counter + 1, lossVar := some l })

/-- The inner loop over one epoch's batches; an exception aborts the run. -/
def runBatches (args : Args) (env : Env) (crit : Criterion) :
    LoopState → List Batch → List Event × Except PyError LoopState
  | st, [] => ([], Except.ok st)
  | st, b :: rest =>
      let r := runBatch args env crit st b
      match r.2 with
      | Except.error e => (r.1, Except.error e)
      | Except.ok st2 =>
          let r2 := runBatches args env crit st2 rest
          (r.1 ++ r2.1, r2.2)

/-- `f'models/model_{e+1:02d}.pt'`: decimal, zero-padded to width 2. -/
def pad2 (n : Nat) : String :=
  if n < 10 then "0" ++ toString n else toString n

/-- Checkpoint file names written at the end of epoch `e1` (1-based). -/
def modelFileName (e1 : Nat) : String := "models/model_" ++ pad2 e1 ++ ".pt"

def critFileName (e1 : Nat) : String := "models/crit_" ++ pad2 e1 ++ ".pt"

def optimFileName (e1 : Nat) : String := "models/optim_" ++ pad2 e1 ++ ".pt"

/-- End-of-epoch checkpoint saves (`trainer.py` lines 124-137), for 0-based
epoch index `e`: three files, only when `args.save_model` is set. -/
def saveEvents (args : Args) (e : Nat) : List Event :=
  if args.save_model then
    [Event.saveFile (modelFileName (e + 1)), Event.saveFile (critFileName (e + 1)),
     Event.saveFile (optimFileName (e + 1))]
  else []

/-- The outer loop (`for e in range(args.num_epochs)`): `e` is the current
0-based epoch index and `n` the number of epochs still to run. -/
def runEpochs (args : Args) (env : Env) (crit : Criterion) :
    LoopState → Nat → Nat → List Event × Except PyError LoopState
  | st, _, 0 => ([], Except.ok st)
  | st, e, n + 1 =>
      let r := runBatches args env crit st (env.batches e)
      match r.2 with
      | Except.error err => (r.1, Except.error err)
      | Except.ok st2 =>
          let r2 := runEpochs args env crit st2 (e + 1) n
          (r.1 ++ saveEvents args e ++ r2.1, r2.2)

/-- The whole script: startup followed by the training loop.  The loop reads
the configuration as left by startup (`st.argsFinal`); the counter starts at
0 and the Python local `loss` starts unbound. -/
def run (args : Args) (env : Env) : List Event × Except PyError LoopState :=
  let s := startup args env
  match s.2 with
  | Except.error e => (s.1, Except.error e)
  | Except.ok st =>
      let r := runEpochs st.argsFinal env st.criterion { counter := 0, lossVar := none } 0
        st.argsFinal.num_epochs
      (s.1 ++ r.1, r.2)

/-- The step indices of the scalars logged under `tag`, in trace order. -/
def loggedSteps (tag : String) (evs : List Event) : List Nat :=
  evs.filterMap (fun ev =>
    match ev with
    | Event.logScalar t _ step => if t = tag then some step else none
    | _ => none)

/-- The values of the scalars logged under `tag`, in trace order. -/
def loggedValues (tag : String) (evs : List Event) : List Rat :=
  evs.filterMap (fun ev =>
    match ev with
    | Event.logScalar t v _ => if t = tag then some v else none
    | _ => none)

/-- The names of the files written, in trace order. -/
def savedFiles (evs : List Event) : List String :=
  evs.filterMap (fun ev =>
    match ev with
    | Event.saveFile n => some n
    | _ => none)

/-- Total number of batches the data loader yields over epochs
`e, e+1, …, e+n-1`. -/
def totalBatches (env : Env) : Nat → Nat → Nat
  | _, 0 => 0
  | e, n + 1 => (env.batches e).length + totalBatches env (e + 1) n

/-- The checkpoint file names expected over epochs `e, …, e+n-1` (0-based):
three per epoch, named by the 1-based epoch index. -/
def epochFiles : Nat → Nat → List String
  | _, 0 => []
  | e, n + 1 =>
      [modelFileName (e + 1), critFileName (e + 1), optimFileName (e + 1)] ++
        epochFiles (e + 1) n

/-- The model output `y = model(feature_extractor(x))` for a batch. -/
def yOf (env : Env) (b : Batch) : List (List Int) :=
  env.modelF (env.featF b.x)

/-- The `(scores, loss)` pair the criterion returns on a batch. -/
def slOf (env : Env) (crit : Criterion) (b : Batch) : List (List Int) × Int :=
  env.critF crit (yOf env b) b.target

/-- The value the script logs under `acc` for a batch: the broadcast
comparison count divided by `y.size(0)`. -/
def accOf (env : Env) (crit : Criterion) (b : Batch) : Rat :=
  (broadcastEqSum (topk1Indices (slOf env crit b).1) b.target : Rat) / ((yOf env b).length : Rat)

/-- The event sequence of one classification batch as the (amended) contract
states it: move the input to the device, feature extraction, move the target
to the device, forward pass, loss computation, accuracy logging, gradient
zeroing, backpropagation, optimizer step, loss logging, with both scalars
logged at the current step counter `c`. -/
def batchTraceSpec (env : Env) (crit : Criterion) (c : Nat) (b : Batch) : List Event :=
  [Event.toDevice "x", Event.featureExtract, Event.toDevice "target", Event.forward,
   Event.computeLoss, Event.logScalar "acc" (accOf env crit b) c, Event.zeroGrad,
   Event.backward, Event.optimStep, Event.logScalar "loss" ((slOf env crit b).2 : Rat) c]

/-- The event sequence of a list of classification batches starting at step
counter `c`: one `batchTraceSpec` block per batch, counter incremented once
per batch. -/
def batchesTraceSpec (env : Env) (crit : Criterion) : Nat → List Batch → List Event
  | _, [] => []
  | c, b :: rest => batchTraceSpec env crit c b ++ batchesTraceSpec env crit (c + 1) rest

/-- The event sequence of `n` classification epochs starting at 0-based epoch
`e` and step counter `c`: each epoch iterates its batch stream once, then
writes the end-of-epoch checkpoints. -/
def epochsTraceSpec (args : Args) (env : Env) (crit : Criterion) : Nat → Nat → Nat → List Event
  | _, _, 0 => []
  | c, e, n + 1 =>
      batchesTraceSpec env crit c (env.batches e) ++ saveEvents args e ++
        epochsTraceSpec args env crit (c + (env.batches e).length) (e + 1) n

/-- A fully specified configuration used to instantiate the claims on
concrete runs. -/
def argsBase : Args where
  criterion_type := "classification"
  criterion := "cosface"
  csv_path := "train.csv"
  win_length := 400
  hop_length := 160
  num_frames := 200
  spk_samples := 4
  batch_size := 2
  num_workers := 0
  num_spkr := some 10
  repr_dim := 3
  m := 2
  s := 30
  init_m := 1
  init_s := 5
  lr := 1
  criterion_lr := 1
  num_epochs := 1
  model_path := ""
  logdir := "logs"
  save_model := false

/-- A concrete classification batch: two samples, speaker labels 5 and 5. -/
def batchRepeat : Batch where
  x := [[1], [2]]
  target := [5, 5]

/-- A concrete environment: six manifest samples, CPU, every epoch yielding
the single batch `batchRepeat`, identity feature extractor and model, and a
criterion whose scores put the top-1 class of both rows at index 5 (so both
top-1 predictions equal their targets) with loss value 7. -/
def envRepeat : Env where
  csvSamples := [([0], 0), ([0], 1), ([0], 2), ([0], 3), ([0], 4), ([0], 5)]
  cudaAvailable := false
  batches := fun _ => [batchRepeat]
  featF := fun x => x
  modelF := fun x => x
  critF := fun _ _ _ => ([[0, 0, 0, 0, 0, 9], [0, 0, 0, 0, 0, 9]], 7)

/-- The criterion object startup builds from `argsBase`/`envRepeat`:
`CosFace(repr_dim=3, num_spkr=len(ds)=6, m=2, s=30)`. -/
def critRepeat : Criterion := Criterion.cosFace 3 (some 6) 2 30

/-- `argsBase` with the metric-learning criterion type. -/
def argsML : Args := { argsBase with criterion_type := "metriclearning" }

/-- `argsBase` with an unknown criterion type. -/
def argsBadType : Args := { argsBase with criterion_type := "regression" }

/-- `argsBase` with an unknown criterion. -/
def argsBadCrit : Args := { argsBase with criterion := "softmax" }

/-- `argsBase` with checkpoint saving enabled and two epochs. -/
def argsSave : Args := { argsBase with save_model := true, num_epochs := 2 }

/-- The configuration left by a successful startup, `none` when startup
raises. -/
def startupArgs (args : Args) (env : Env) : Option Args :=
  match (startup args env).2 with
  | Except.ok st => some st.argsFinal
  | Except.error _ => none

/-- The `num_spkr` constructor argument a criterion object received. -/
def criterionNumSpkr : Criterion → Option Nat
  | Criterion.cosFace _ ns _ _ => ns
  | Criterion.psge2e _ ns _ _ => ns
  | Criterion.prototypical _ ns => ns

/-- Recognizes the model-checkpoint restore event. -/
def isModelLoad : Event → Bool
  | Event.loadModelState _ => true
  | _ => false

/-- Recognizes a criterion- or optimizer-state restore event. -/
def isCritOrOptimLoad : Event → Bool
  | Event.loadCriterionState _ => true
  | Event.loadOptimizerState _ => true
  | _ => false

/-- Recognizes any state-restore event. -/
def isLoadEvent : Event → Bool
  | Event.loadModelState _ => true
  | Event.loadCriterionState _ => true
  | Event.loadOptimizerState _ => true
  | _ => false

/-- Recognizes a scalar logged under `acc`. -/
def isAccLogEvent : Event → Bool
  | Event.logScalar t _ _ => t = "acc"
  | _ => false

deriving instance DecidableEq for Except

/-! ### Structural lemmas -/

theorem runBatch_class (args : Args) (env : Env) (crit : Criterion) (st : LoopState) (b : Batch)
    (h : args.criterion_type = "classification") :
    runBatch args env crit st b =
      (batchTraceSpec env crit st.counter b,
       Except.ok { counter := st.counter + 1, lossVar := some (slOf env crit b).2 }) := by
  simp [runBatch, batchTraceSpec, accOf, slOf, yOf, h]

theorem runBatch_unbound (args : Args) (env : Env) (crit : Criterion) (st : LoopState)
    (b : Batch) (h : ¬ args.criterion_type = "classification") (h2 : st.lossVar = none) :
    runBatch args env crit st b =
      ([Event.toDevice "x", Event.featureExtract, Event.toDevice "target", Event.forward,
        Event.zeroGrad], Except.error (PyError.nameError "loss")) := by
  simp [runBatch, h, h2]

theorem runBatches_class (args : Args) (env : Env) (crit : Criterion)
    (h : args.criterion_type = "classification") (bs : List Batch) :
    ∀ (c : Nat) (lv : Option Int), ∃ l : Option Int,
      runBatches args env crit { counter := c, lossVar := lv } bs =
        (batchesTraceSpec env crit c bs,
         Except.ok { counter := c + bs.length, lossVar := l }) := by
  induction bs with
  | nil => exact fun c lv => ⟨lv, by simp [runBatches, batchesTraceSpec]⟩
  | cons b rest ih =>
      intro c lv
      obtain ⟨l, hl⟩ := ih (c + 1) (some (slOf env crit b).2)
      refine ⟨l, ?_⟩
      have harith : c + 1 + rest.length = c + (rest.length + 1) := by omega
      simp [runBatches, runBatch_class args env crit ⟨c, lv⟩ b h, hl, batchesTraceSpec,
        harith]

theorem runEpochs_class (args : Args) (env : Env) (crit : Criterion)
    (h : args.criterion_type = "classification") (n : Nat) :
    ∀ (e c : Nat) (lv : Option Int), ∃ l : Option Int,
      runEpochs args env crit { counter := c, lossVar := lv } e n =
        (epochsTraceSpec args env crit c e n,
         Except.ok { counter := c + totalBatches env e n, lossVar := l }) := by
  induction n with
  | zero => exact fun e c lv => ⟨lv, by simp [runEpochs, epochsTraceSpec, totalBatches]⟩
  | succ n ih =>
      intro e c lv
      obtain ⟨l1, h1⟩ := runBatches_class args env crit h (env.batches e) c lv
      obtain ⟨l2, h2⟩ := ih (e + 1) (c + (env.batches e).length) l1
      refine ⟨l2, ?_⟩
      have harith : c + (env.batches e).length + totalBatches env (e + 1) n =
          c + ((env.batches e).length + totalBatches env (e + 1) n) := by omega
      simp [runEpochs, h1, h2, epochsTraceSpec, totalBatches, harith]

theorem run_decompose (args : Args) (env : Env) (st : StartupState)
    (h : (startup args env).2 = Except.ok st) :
    run args env =
      ((startup args env).1 ++
        (runEpochs st.argsFinal env st.criterion { counter := 0, lossVar := none } 0
          st.argsFinal.num_epochs).1,
       (runEpochs st.argsFinal env st.criterion { counter := 0, lossVar := none } 0
          st.argsFinal.num_epochs).2) := by
  simp [run, h]

theorem run_of_startup_error (args : Args) (env : Env) (e : PyError)
    (h : (startup args env).2 = Except.error e) :
    run args env = ((startup args env).1, Except.error e) := by
  simp [run, h]

theorem startup_ok_inv (args : Args) (env : Env) (st : StartupState)
    (h : (startup args env).2 = Except.ok st) :
    st.argsFinal = args ∨
      st.argsFinal = { args with num_spkr := some env.csvSamples.length } := by
  unfold startup startupAfterDataset at h
  split_ifs at h <;> simp at h <;> (subst h; simp)

theorem startup_ok_fields (args : Args) (env : Env) (st : StartupState)
    (h : (startup args env).2 = Except.ok st) :
    st.argsFinal.criterion_type = args.criterion_type ∧
      st.argsFinal.criterion = args.criterion ∧
      st.argsFinal.num_epochs = args.num_epochs ∧
      st.argsFinal.save_model = args.save_model := by
  rcases startup_ok_inv args env st h with h1 | h1 <;> rw [h1] <;>
    exact ⟨rfl, rfl, rfl, rfl⟩

theorem startup_class_argsFinal (args : Args) (env : Env) (st : StartupState)
    (hc : args.criterion_type = "classification")
    (h : (startup args env).2 = Except.ok st) :
    st.argsFinal = { args with num_spkr := some env.csvSamples.length } := by
  unfold startup startupAfterDataset at h
  rw [if_pos hc] at h
  split_ifs at h <;> simp at h <;> (subst h; simp)

theorem startup_ml_argsFinal (args : Args) (env : Env) (st : StartupState)
    (hc : args.criterion_type = "metriclearning")
    (h : (startup args env).2 = Except.ok st) :
    st.argsFinal = args := by
  unfold startup startupAfterDataset at h
  have hne : ¬ args.criterion_type = "classification" := by
    rw [hc]; decide
  rw [if_neg hne, if_pos hc] at h
  split_ifs at h <;> simp at h <;> (subst h; simp)

theorem startup_ml_ok (args : Args) (env : Env)
    (hc : args.criterion_type = "metriclearning")
    (h2 : args.criterion = "cosface" ∨ args.criterion = "psge2e" ∨
      args.criterion = "prototypical") :
    ∃ c : Criterion, (startup args env).2 = Except.ok
      { device := if env.cudaAvailable then Device.cuda else Device.cpu,
        argsFinal := args, criterion := c } := by
  have hne : ¬ args.criterion_type = "classification" := by
    rw [hc]; decide
  rcases h2 with h2 | h2 | h2
  · exact ⟨Criterion.cosFace args.repr_dim args.num_spkr args.m args.s,
      by simp +decide [startup, startupAfterDataset, hne, hc, h2]⟩
  · exact ⟨Criterion.psge2e args.repr_dim args.num_spkr args.init_m args.init_s,
      by simp +decide [startup, startupAfterDataset, hne, hc, h2]⟩
  · exact ⟨Criterion.prototypical args.repr_dim args.num_spkr,
      by simp +decide [startup, startupAfterDataset, hne, hc, h2]⟩

theorem loggedSteps_append (tag : String) (l1 l2 : List Event) :
    loggedSteps tag (l1 ++ l2) = loggedSteps tag l1 ++ loggedSteps tag l2 :=
  List.filterMap_append l1 l2 _

theorem savedFiles_append (l1 l2 : List Event) :
    savedFiles (l1 ++ l2) = savedFiles l1 ++ savedFiles l2 :=
  List.filterMap_append l1 l2 _

theorem loggedSteps_startup (tag : String) (args : Args) (env : Env) :
    loggedSteps tag (startup args env).1 = [] := by
  unfold startup startupAfterDataset
  split_ifs <;> simp [loggedSteps]

theorem savedFiles_startup (args : Args) (env : Env) :
    savedFiles (startup args env).1 = [] := by
  unfold startup startupAfterDataset
  split_ifs <;> simp [savedFiles]

theorem startup_no_loop_events (args : Args) (env : Env) :
    Event.forward ∉ (startup args env).1 ∧ Event.computeLoss ∉ (startup args env).1 ∧
      Event.zeroGrad ∉ (startup args env).1 ∧ Event.backward ∉ (startup args env).1 ∧
      Event.optimStep ∉ (startup args env).1 := by
  unfold startup startupAfterDataset
  split_ifs <;> simp

theorem loggedSteps_batchTrace_loss (env : Env) (crit : Criterion) (c : Nat) (b : Batch) :
    loggedSteps "loss" (batchTraceSpec env crit c b) = [c] := by
  simp only [batchTraceSpec, loggedSteps, List.filterMap_cons, List.filterMap_nil]
  rw [if_neg (by decide : ¬ "acc" = "loss")]
  simp

theorem loggedSteps_batchTrace_acc (env : Env) (crit : Criterion) (c : Nat) (b : Batch) :
    loggedSteps "acc" (batchTraceSpec env crit c b) = [c] := by
  simp only [batchTraceSpec, loggedSteps, List.filterMap_cons, List.filterMap_nil]
  rw [if_neg (by decide : ¬ "loss" = "acc")]
  simp

theorem loggedSteps_batchesTrace_loss (env : Env) (crit : Criterion) (bs : List Batch) :
    ∀ c : Nat, loggedSteps "loss" (batchesTraceSpec env crit c bs) =
      List.range' c bs.length := by
  induction bs with
  | nil => intro c; simp [batchesTraceSpec, loggedSteps]
  | cons b rest ih =>
      intro c
      simp [batchesTraceSpec, loggedSteps_append, loggedSteps_batchTrace_loss, ih,
        List.range'_succ]

theorem loggedSteps_batchesTrace_acc (env : Env) (crit : Criterion) (bs : List Batch) :
    ∀ c : Nat, loggedSteps "acc" (batchesTraceSpec env crit c bs) =
      List.range' c bs.length := by
  induction bs with
  | nil => intro c; simp [batchesTraceSpec, loggedSteps]
  | cons b rest ih =>
      intro c
      simp [batchesTraceSpec, loggedSteps_append, loggedSteps_batchTrace_acc, ih,
        List.range'_succ]

theorem loggedSteps_saveEvents (tag : String) (args : Args) (e : Nat) :
    loggedSteps tag (saveEvents args e) = [] := by
  unfold saveEvents
  split_ifs <;> simp [loggedSteps]

theorem savedFiles_saveEvents (args : Args) (e : Nat) :
    savedFiles (saveEvents args e) =
      if args.save_model then
        [modelFileName (e + 1), critFileName (e + 1), optimFileName (e + 1)]
      else [] := by
  unfold saveEvents
  split_ifs <;> simp [savedFiles]

theorem range1_add (m : Nat) : ∀ (c n : Nat),
    List.range' c (m + n) = List.range' c m ++ List.range' (c + m) n := by
  induction m with
  | zero => intro c n; simp
  | succ m ih =>
      intro c n
      have h1 : m + 1 + n = (m + n) + 1 := by omega
      rw [h1, List.range'_succ, List.range'_succ, List.cons_append, ih (c + 1) n]
      have h2 : c + 1 + m = c + (m + 1) := by omega
      rw [h2]

theorem loggedSteps_epochsTrace_loss (args : Args) (env : Env) (crit : Criterion) (n : Nat) :
    ∀ (c e : Nat), loggedSteps "loss" (epochsTraceSpec args env crit c e n) =
      List.range' c (totalBatches env e n) := by
  induction n with
  | zero => intro c e; simp [epochsTraceSpec, totalBatches, loggedSteps]
  | succ n ih =>
      intro c e
      simp only [epochsTraceSpec, totalBatches, loggedSteps_append,
        loggedSteps_batchesTrace_loss, loggedSteps_saveEvents, ih, List.nil_append,
        List.append_nil]
      rw [range1_add]

theorem loggedSteps_epochsTrace_acc (args : Args) (env : Env) (crit : Criterion) (n : Nat) :
    ∀ (c e : Nat), loggedSteps "acc" (epochsTraceSpec args env crit c e n) =
      List.range' c (totalBatches env e n) := by
  induction n with
  | zero => intro c e; simp [epochsTraceSpec, totalBatches, loggedSteps]
  | succ n ih =>
      intro c e
      simp only [epochsTraceSpec, totalBatches, loggedSteps_append,
        loggedSteps_batchesTrace_acc, loggedSteps_saveEvents, ih, List.nil_append,
        List.append_nil]
      rw [range1_add]

theorem savedFiles_batchTrace (env : Env) (crit : Criterion) (c : Nat) (b : Batch) :
    savedFiles (batchTraceSpec env crit c b) = [] := by
  simp [batchTraceSpec, savedFiles]

theorem savedFiles_batchesTrace (env : Env) (crit : Criterion) (bs : List Batch) :
    ∀ c : Nat, savedFiles (batchesTraceSpec env crit c bs) = [] := by
  induction bs with
  | nil => intro c; simp [batchesTraceSpec, savedFiles]
  | cons b rest ih =>
      intro c
      simp [batchesTraceSpec, savedFiles_append, savedFiles_batchTrace, ih]

theorem savedFiles_epochsTrace (args : Args) (env : Env) (crit : Criterion) (n : Nat) :
    ∀ (c e : Nat), savedFiles (epochsTraceSpec args env crit c e n) =
      if args.save_model then epochFiles e n else [] := by
  induction n with
  | zero => intro c e; simp [epochsTraceSpec, epochFiles, savedFiles]
  | succ n ih =>
      intro c e
      simp only [epochsTraceSpec, savedFiles_append, savedFiles_batchesTrace,
        savedFiles_saveEvents, ih, epochFiles, List.nil_append]
      split_ifs <;> simp

theorem savedFiles_runBatch (args : Args) (env : Env) (crit : Criterion) (st : LoopState)
    (b : Batch) : savedFiles (runBatch args env crit st b).1 = [] := by
  rcases h : st.lossVar with _ | l <;>
    (unfold runBatch; split_ifs <;> simp [savedFiles, h])

theorem savedFiles_runBatches (args : Args) (env : Env) (crit : Criterion) (bs : List Batch) :
    ∀ st : LoopState, savedFiles (runBatches args env crit st bs).1 = [] := by
  induction bs with
  | nil => intro st; simp [runBatches, savedFiles]
  | cons b rest ih =>
      intro st
      rcases h : (runBatch args env crit st b).2 with e | st2 <;>
        simp [runBatches, h, savedFiles_append, savedFiles_runBatch, ih]

theorem savedFiles_runEpochs_off (args : Args) (env : Env) (crit : Criterion)
    (hsm : args.save_model = false) (n : Nat) :
    ∀ (st : LoopState) (e : Nat), savedFiles (runEpochs args env crit st e n).1 = [] := by
  induction n with
  | zero => intro st e; simp [runEpochs, savedFiles]
  | succ n ih =>
      intro st e
      rcases h : (runBatches args env crit st (env.batches e)).2 with err | st2
      · simp only [runEpochs, h]
        exact savedFiles_runBatches args env crit (env.batches e) st
      · simp only [runEpochs, h]
        rw [savedFiles_append, savedFiles_append, savedFiles_runBatches, ih]
        simp [saveEvents, hsm, savedFiles]

theorem savedFiles_run_off (args : Args) (env : Env) (hsm : args.save_model = false) :
    savedFiles (run args env).1 = [] := by
  rcases h : (startup args env).2 with e | st
  · rw [run_of_startup_error args env e h, savedFiles_startup]
  · have hsm2 : st.argsFinal.save_model = false :=
      (startup_ok_fields args env st h).2.2.2.trans hsm
    rw [run_decompose args env st h]
    simp [savedFiles_append, savedFiles_startup,
      savedFiles_runEpochs_off st.argsFinal env st.criterion hsm2]

theorem filter_runBatch_loadFree (p : Event → Bool)
    (hp1 : ∀ s, p (Event.toDevice s) = false) (hp2 : p Event.featureExtract = false)
    (hp3 : p Event.forward = false) (hp4 : p Event.computeLoss = false)
    (hp5 : ∀ t v c, p (Event.logScalar t v c) = false) (hp6 : p Event.zeroGrad = false)
    (hp7 : p Event.backward = false) (hp8 : p Event.optimStep = false)
    (args : Args) (env : Env) (crit : Criterion) (st : LoopState) (b : Batch) :
    (runBatch args env crit st b).1.filter p = [] := by
  rcases h : st.lossVar with _ | l <;>
    (unfold runBatch; split_ifs <;> simp [h, hp1, hp2, hp3, hp4, hp5, hp6, hp7, hp8])

theorem filter_runBatches_loadFree (p : Event → Bool)
    (hp1 : ∀ s, p (Event.toDevice s) = false) (hp2 : p Event.featureExtract = false)
    (hp3 : p Event.forward = false) (hp4 : p Event.computeLoss = false)
    (hp5 : ∀ t v c, p (Event.logScalar t v c) = false) (hp6 : p Event.zeroGrad = false)
    (hp7 : p Event.backward = false) (hp8 : p Event.optimStep = false)
    (args : Args) (env : Env) (crit : Criterion) (bs : List Batch) :
    ∀ st : LoopState, (runBatches args env crit st bs).1.filter p = [] := by
  induction bs with
  | nil => intro st; simp [runBatches]
  | cons b rest ih =>
      intro st
      rcases h : (runBatch args env crit st b).2 with e | st2 <;>
        simp [runBatches, h, List.filter_append, ih,
          filter_runBatch_loadFree p hp1 hp2 hp3 hp4 hp5 hp6 hp7 hp8]

theorem filter_runEpochs_loadFree (p : Event → Bool)
    (hp1 : ∀ s, p (Event.toDevice s) = false) (hp2 : p Event.featureExtract = false)
    (hp3 : p Event.forward = false) (hp4 : p Event.computeLoss = false)
    (hp5 : ∀ t v c, p (Event.logScalar t v c) = false) (hp6 : p Event.zeroGrad = false)
    (hp7 : p Event.backward = false) (hp8 : p Event.optimStep = false)
    (hp9 : ∀ s, p (Event.saveFile s) = false)
    (args : Args) (env : Env) (crit : Criterion) (n : Nat) :
    ∀ (st : LoopState) (e : Nat), (runEpochs args env crit st e n).1.filter p = [] := by
  induction n with
  | zero => intro st e; simp [runEpochs]
  | succ n ih =>
      intro st e
      rcases h : (runBatches args env crit st (env.batches e)).2 with err | st2
      · simp only [runEpochs, h]
        exact filter_runBatches_loadFree p hp1 hp2 hp3 hp4 hp5 hp6 hp7 hp8 args env crit
          (env.batches e) st
      · simp only [runEpochs, h]
        rw [List.filter_append, List.filter_append,
          filter_runBatches_loadFree p hp1 hp2 hp3 hp4 hp5 hp6 hp7 hp8, ih]
        simp only [List.nil_append, List.append_nil]
        unfold saveEvents
        split_ifs <;> simp [hp9]

theorem filter_isCritOrOptimLoad_startup (args : Args) (env : Env) :
    (startup args env).1.filter isCritOrOptimLoad = [] := by
  unfold startup startupAfterDataset
  split_ifs <;> simp [isCritOrOptimLoad]

theorem filter_isModelLoad_startup (args : Args) (env : Env) :
    (startup args env).1.filter isModelLoad =
      if (args.criterion_type = "classification" ∨ args.criterion_type = "metriclearning") ∧
          ¬ args.model_path = "" then [Event.loadModelState args.model_path] else [] := by
  unfold startup startupAfterDataset
  split_ifs <;> simp_all [isModelLoad]

/-- C9: when a resume checkpoint path is provided, only the model's state is
restored at startup: across the entire run the trace contains no
criterion-state or optimizer-state restore, and it contains a model-state
restore exactly when startup passes the dataset dispatch and `model_path` is
truthy — in which case it is the single event `loadModelState model_path`. -/
theorem c9_resume_restores_only_model (args : Args) (env : Env) :
    (run args env).1.filter isCritOrOptimLoad = [] ∧
      (run args env).1.filter isModelLoad =
        (if (args.criterion_type = "classification" ∨
            args.criterion_type = "metriclearning") ∧ ¬ args.model_path = "" then
          [Event.loadModelState args.model_path]
        else []) := by
  rcases h : (startup args env).2 with e | st
  · rw [run_of_startup_error args env e h]
    exact ⟨filter_isCritOrOptimLoad_startup args env, filter_isModelLoad_startup args env⟩
  · rw [run_decompose args env st h]
    constructor
    · rw [List.filter_append, filter_isCritOrOptimLoad_startup,
        filter_runEpochs_loadFree isCritOrOptimLoad (fun _ => rfl) rfl rfl rfl
          (fun _ _ _ => rfl) rfl rfl rfl (fun _ => rfl), List.append_nil]
    · rw [List.filter_append, filter_isModelLoad_startup,
        filter_runEpochs_loadFree isModelLoad (fun _ => rfl) rfl rfl rfl
          (fun _ _ _ => rfl) rfl rfl rfl (fun _ => rfl), List.append_nil]

/-- C4: an unknown `criterion_type` raises the configuration `ValueError` at
startup, with an empty event trace: no dataset is constructed and no
training occurs. -/
theorem c4_invalid_criterion_type_early_error (args : Args) (env : Env)
    (h1 : ¬ args.criterion_type = "classification")
    (h2 : ¬ args.criterion_type = "metriclearning") :
    run args env =
      ([], Except.error (PyError.valueError "args.criterion-type: no valid criterion type")) := by
  have hs : startup args env =
      ([], Except.error (PyError.valueError "args.criterion-type: no valid criterion type")) := by
    unfold startup
    rw [if_neg h1, if_neg h2]
  have hs2 : (startup args env).2 =
      Except.error (PyError.valueError "args.criterion-type: no valid criterion type") := by
    rw [hs]
  rw [run_of_startup_error args env _ hs2, hs]

/-- C4 witness: a concrete run with `criterion_type = "regression"`. -/
theorem c4_witness :
    run argsBadType envRepeat =
      ([], Except.error (PyError.valueError "args.criterion-type: no valid criterion type")) :=
  c4_invalid_criterion_type_early_error argsBadType envRepeat (by decide) (by decide)

/-- C5: a known `criterion_type` with an unknown `criterion` raises the
configuration `ValueError` at startup, before any training step: the trace
contains no forward pass, loss computation, gradient zeroing,
backpropagation, or optimizer step. -/
theorem c5_invalid_criterion_early_error (args : Args) (env : Env)
    (h1 : args.criterion_type = "classification" ∨ args.criterion_type = "metriclearning")
    (h2 : ¬ args.criterion = "cosface") (h3 : ¬ args.criterion = "psge2e")
    (h4 : ¬ args.criterion = "prototypical") :
    (run args env).2 =
        Except.error (PyError.valueError "args.criterion: no valid criterion function") ∧
      Event.forward ∉ (run args env).1 ∧ Event.computeLoss ∉ (run args env).1 ∧
      Event.zeroGrad ∉ (run args env).1 ∧ Event.backward ∉ (run args env).1 ∧
      Event.optimStep ∉ (run args env).1 := by
  have hs2 : (startup args env).2 =
      Except.error (PyError.valueError "args.criterion: no valid criterion function") := by
    rcases h1 with h1 | h1 <;> simp +decide [startup, startupAfterDataset, h1, h2, h3, h4]
  rw [run_of_startup_error args env _ hs2]
  exact ⟨rfl, (startup_no_loop_events args env).1, (startup_no_loop_events args env).2.1,
    (startup_no_loop_events args env).2.2.1, (startup_no_loop_events args env).2.2.2.1,
    (startup_no_loop_events args env).2.2.2.2⟩

/-- C5 witness: a concrete run with `criterion = "softmax"`. -/
theorem c5_witness :
    (run argsBadCrit envRepeat).2 =
        Except.error (PyError.valueError "args.criterion: no valid criterion function") ∧
      Event.forward ∉ (run argsBadCrit envRepeat).1 ∧
      Event.computeLoss ∉ (run argsBadCrit envRepeat).1 ∧
      Event.zeroGrad ∉ (run argsBadCrit envRepeat).1 ∧
      Event.backward ∉ (run argsBadCrit envRepeat).1 ∧
      Event.optimStep ∉ (run argsBadCrit envRepeat).1 :=
  c5_invalid_criterion_early_error argsBadCrit envRepeat (Or.inl (by decide)) (by decide)
    (by decide) (by decide)

theorem startup_criterion_numSpkr (args : Args) (env : Env) (st : StartupState)
    (h : (startup args env).2 = Except.ok st) :
    criterionNumSpkr st.criterion = st.argsFinal.num_spkr := by
  unfold startup startupAfterDataset at h
  split_ifs at h <;> simp at h <;> (subst h; simp [criterionNumSpkr])

/-- C2 counterexample: with `criterion_type = "classification"` the parsed
configuration value `num_spkr = some 10` is overwritten during startup by the
dataset length 6, so the configuration is not immutable for the run. -/
theorem c2_counterexample :
    (startupArgs argsBase envRepeat).map Args.num_spkr = some (some 6) ∧
      argsBase.num_spkr = some 10 ∧ ¬ startupArgs argsBase envRepeat = some argsBase := by
  decide

/-- C2 (amended): the configuration is parsed once; in metric-learning mode
no field is ever modified, while in classification mode exactly one field,
`num_spkr`, is overwritten once during startup with the dataset length, and
the rest of the configuration is unchanged. -/
theorem c2_config_mutation (args : Args) (env : Env) :
    (args.criterion_type = "metriclearning" →
        ∀ st : StartupState, (startup args env).2 = Except.ok st → st.argsFinal = args) ∧
      (args.criterion_type = "classification" →
        ∀ st : StartupState, (startup args env).2 = Except.ok st →
          st.argsFinal = { args with num_spkr := some env.csvSamples.length }) :=
  ⟨fun h st hs => startup_ml_argsFinal args env st h hs,
   fun h st hs => startup_class_argsFinal args env st h hs⟩

/-- C2 witness: the amended statement instantiated on concrete
metric-learning and classification startups. -/
theorem c2_witness :
    (StartupState.mk Device.cpu argsML (Criterion.cosFace 3 (some 10) 2 30)).argsFinal =
        argsML ∧
      (StartupState.mk Device.cpu { argsBase with num_spkr := some 6 }
            critRepeat).argsFinal =
        { argsBase with num_spkr := some 6 } :=
  ⟨(c2_config_mutation argsML envRepeat).1 (by decide) _ (by decide),
   (c2_config_mutation argsBase envRepeat).2 (by decide) _ (by decide)⟩

/-- C10: in classification mode the criterion constructor receives
`num_spkr = len(ds)` (the dataset length), which also overwrites the parsed
configuration value; in metric-learning mode the trainer never assigns
`num_spkr` and the criterion constructor receives whatever value the argument
parser provided. -/
theorem c10_num_spkr_source (args : Args) (env : Env) :
    (args.criterion_type = "classification" →
        ∀ st : StartupState, (startup args env).2 = Except.ok st →
          criterionNumSpkr st.criterion = some env.csvSamples.length ∧
            st.argsFinal.num_spkr = some env.csvSamples.length) ∧
      (args.criterion_type = "metriclearning" →
        ∀ st : StartupState, (startup args env).2 = Except.ok st →
          criterionNumSpkr st.criterion = args.num_spkr ∧
            st.argsFinal.num_spkr = args.num_spkr) := by
  constructor
  · intro h st hs
    have h1 := startup_criterion_numSpkr args env st hs
    have h2 := startup_class_argsFinal args env st h hs
    rw [h2] at h1
    exact ⟨h1, by rw [h2]⟩
  · intro h st hs
    have h1 := startup_criterion_numSpkr args env st hs
    have h2 := startup_ml_argsFinal args env st h hs
    rw [h2] at h1
    exact ⟨h1, by rw [h2]⟩

/-- C10 witness: the statement instantiated on concrete classification and
metric-learning startups. -/
theorem c10_witness :
    (criterionNumSpkr critRepeat = some 6 ∧
        ({ argsBase with num_spkr := some 6 } : Args).num_spkr = some 6) ∧
      criterionNumSpkr (Criterion.cosFace 3 (some 10) 2 30) = some 10 ∧
        argsML.num_spkr = some 10 :=
  ⟨(c10_num_spkr_source argsBase envRepeat).1 (by decide)
      (StartupState.mk Device.cpu { argsBase with num_spkr := some 6 } critRepeat) (by decide),
   (c10_num_spkr_source argsML envRepeat).2 (by decide)
      (StartupState.mk Device.cpu argsML (Criterion.cosFace 3 (some 10) 2 30)) (by decide)⟩

/-- C6: in classification mode, for a run that completes, the step counter
starts at 0, is never reset at an epoch boundary, and ends equal to the total
number of batches processed across all epochs; the `loss` and `acc` scalars
of the k-th batch overall are logged at step index k-1, i.e. the logged step
indices are exactly 0, 1, …, N-1. -/
theorem c6_counter_and_log_steps (args : Args) (env : Env) (st' : LoopState)
    (h1 : args.criterion_type = "classification")
    (h2 : (run args env).2 = Except.ok st') :
    st'.counter = totalBatches env 0 args.num_epochs ∧
      loggedSteps "loss" (run args env).1 = List.range st'.counter ∧
      loggedSteps "acc" (run args env).1 = List.range st'.counter := by
  rcases hst : (startup args env).2 with e | st
  · rw [run_of_startup_error args env e hst] at h2
    exact absurd h2 (by simp)
  · have hfields := startup_ok_fields args env st hst
    have hct : st.argsFinal.criterion_type = "classification" := hfields.1.trans h1
    obtain ⟨l, hre⟩ := runEpochs_class st.argsFinal env st.criterion hct
      st.argsFinal.num_epochs 0 0 none
    rw [run_decompose args env st hst] at h2 ⊢
    rw [hre] at h2 ⊢
    simp only [] at h2
    have hst' : st' = LoopState.mk (totalBatches env 0 st.argsFinal.num_epochs) l := by
      have := h2
      simp at this
      exact this.symm
    subst hst'
    refine ⟨by simp [hfields.2.2.1], ?_, ?_⟩
    · rw [loggedSteps_append, loggedSteps_startup, List.nil_append,
        loggedSteps_epochsTrace_loss]
      simp [List.range_eq_range']
    · rw [loggedSteps_append, loggedSteps_startup, List.nil_append,
        loggedSteps_epochsTrace_acc]
      simp [List.range_eq_range']

/-- C6 witness: a concrete two-epoch classification run with one batch per
epoch: the final counter is 2 and both scalars are logged at steps 0 and 1. -/
theorem c6_witness :
    (LoopState.mk 2 (some 7)).counter = totalBatches envRepeat 0 argsSave.num_epochs ∧
      loggedSteps "loss" (run argsSave envRepeat).1 =
        List.range (LoopState.mk 2 (some 7)).counter ∧
      loggedSteps "acc" (run argsSave envRepeat).1 =
        List.range (LoopState.mk 2 (some 7)).counter :=
  c6_counter_and_log_steps argsSave envRepeat (LoopState.mk 2 (some 7)) (by decide) (by decide)

/-- C7: checkpoint files are written only when the save flag is enabled — a
run with the flag off writes no file, even when it aborts — and when the flag
is on, a completed classification run writes exactly three files per epoch,
`models/model_<e>.pt`, `models/crit_<e>.pt`, `models/optim_<e>.pt` for the
1-based, zero-padded epoch index `e`, in epoch order. -/
theorem c7_checkpoint_files (args : Args) (env : Env) :
    (args.save_model = false → savedFiles (run args env).1 = []) ∧
      (args.save_model = true → args.criterion_type = "classification" →
        ∀ st' : LoopState, (run args env).2 = Except.ok st' →
          savedFiles (run args env).1 = epochFiles 0 args.num_epochs) := by
  constructor
  · exact fun hsm => savedFiles_run_off args env hsm
  · intro hsm hct st' h2
    rcases hst : (startup args env).2 with e | st
    · rw [run_of_startup_error args env e hst] at h2
      exact absurd h2 (by simp)
    · have hfields := startup_ok_fields args env st hst
      have hsm2 : st.argsFinal.save_model = true := hfields.2.2.2.trans hsm
      obtain ⟨l, hre⟩ := runEpochs_class st.argsFinal env st.criterion
        (hfields.1.trans hct) st.argsFinal.num_epochs 0 0 none
      rw [run_decompose args env st hst, hre]
      rw [savedFiles_append, savedFiles_startup, List.nil_append, savedFiles_epochsTrace]
      rw [hsm2, if_pos rfl, hfields.2.2.1]

/-- C7 witness: with the flag off no file is written; with the flag on, a
two-epoch classification run writes exactly the six epoch-indexed files. -/
theorem c7_witness :
    savedFiles (run argsBase envRepeat).1 = [] ∧
      savedFiles (run argsSave envRepeat).1 = epochFiles 0 argsSave.num_epochs :=
  ⟨(c7_checkpoint_files argsBase envRepeat).1 rfl,
   (c7_checkpoint_files argsSave envRepeat).2 rfl (by decide) (LoopState.mk 2 (some 7))
     (by decide)⟩

/-- C8 counterexample: in a concrete classification run an `acc` scalar is
logged, and no optimizer step precedes the first `acc` log — the accuracy is
logged right after the loss is computed, not after the optimizer step as the
claim states. -/
theorem c8_counterexample :
    (run argsBase envRepeat).1.any isAccLogEvent = true ∧
      Event.optimStep ∉ (run argsBase envRepeat).1.takeWhile
        (fun ev => ! isAccLogEvent ev) := by
  decide

/-- C8 (amended): for each epoch in [1..num_epochs] the full dataset is
iterated once in mini-batches; in classification mode each batch performs, in
order: move the input to the device, feature extraction, move the target to
the device, model forward pass, loss computation, accuracy logging, gradient
zeroing, backpropagation, optimizer step, loss logging — both scalars logged
under the globally incrementing step counter — and each epoch ends with the
optional checkpoint saves. -/
theorem c8_batch_event_order (args : Args) (env : Env) (st : StartupState)
    (h1 : args.criterion_type = "classification")
    (hs : (startup args env).2 = Except.ok st) :
    (run args env).1 =
      (startup args env).1 ++
        epochsTraceSpec st.argsFinal env st.criterion 0 0 st.argsFinal.num_epochs := by
  have hct := (startup_ok_fields args env st hs).1.trans h1
  obtain ⟨l, hre⟩ := runEpochs_class st.argsFinal env st.criterion hct
    st.argsFinal.num_epochs 0 0 none
  rw [run_decompose args env st hs, hre]

/-- C8 witness: the amended per-batch event order instantiated on a concrete
one-epoch classification run. -/
theorem c8_witness :
    (run argsBase envRepeat).1 =
      (startup argsBase envRepeat).1 ++
        epochsTraceSpec { argsBase with num_spkr := some 6 } envRepeat critRepeat 0 0 1 :=
  c8_batch_event_order argsBase envRepeat
    (StartupState.mk Device.cpu { argsBase with num_spkr := some 6 } critRepeat)
    (by decide) (by decide)

/-- C1 counterexample: a concrete metric-learning run terminates with
`NameError` on the first batch and its trace contains no loss computation —
the loss is not computed, so the backward step does not operate on a defined
loss value. -/
theorem c1_counterexample :
    (run argsML envRepeat).2 = Except.error (PyError.nameError "loss") ∧
      Event.computeLoss ∉ (run argsML envRepeat).1 := by
  decide

/-- C1 (amended): when `criterion_type` is `"metriclearning"`, the
metric-learning branch is a pure no-op: no loss is ever computed, so on the
first batch of a non-empty dataset `loss.backward()` reads the unbound local
`loss` and the run terminates with a `NameError` — gradients are zeroed, but
backpropagation and the optimizer step never execute. -/
theorem c1_metriclearning_loss_undefined (args : Args) (env : Env)
    (h1 : args.criterion_type = "metriclearning")
    (h2 : args.criterion = "cosface" ∨ args.criterion = "psge2e" ∨
      args.criterion = "prototypical")
    (h3 : 0 < args.num_epochs) (h4 : env.batches 0 ≠ []) :
    (run args env).2 = Except.error (PyError.nameError "loss") ∧
      Event.computeLoss ∉ (run args env).1 ∧ Event.backward ∉ (run args env).1 ∧
      Event.optimStep ∉ (run args env).1 := by
  obtain ⟨c, hs⟩ := startup_ml_ok args env h1 h2
  obtain ⟨n, hn⟩ : ∃ n, args.num_epochs = n + 1 := ⟨args.num_epochs - 1, by omega⟩
  obtain ⟨b, rest, hb⟩ : ∃ b rest, env.batches 0 = b :: rest := by
    cases hbb : env.batches 0 with
    | nil => exact absurd hbb h4
    | cons b r => exact ⟨b, r, rfl⟩
  have hnc : ¬ args.criterion_type = "classification" := by
    rw [h1]; decide
  have hrb := runBatch_unbound args env c (LoopState.mk 0 none) b hnc rfl
  have hloop : runEpochs args env c (LoopState.mk 0 none) 0 args.num_epochs =
      ([Event.toDevice "x", Event.featureExtract, Event.toDevice "target", Event.forward,
        Event.zeroGrad], Except.error (PyError.nameError "loss")) := by
    rw [hn]
    simp [runEpochs, runBatches, hb, hrb]
  rw [run_decompose args env _ hs]
  simp only [hloop]
  have hns := startup_no_loop_events args env
  refine ⟨by trivial, ?_, ?_, ?_⟩
  · rw [List.mem_append]
    rintro (hmem | hmem)
    · exact hns.2.1 hmem
    · simp at hmem
  · rw [List.mem_append]
    rintro (hmem | hmem)
    · exact hns.2.2.2.1 hmem
    · simp at hmem
  · rw [List.mem_append]
    rintro (hmem | hmem)
    · exact hns.2.2.2.2 hmem
    · simp at hmem

/-- C1 witness: the amended statement instantiated on a concrete
metric-learning run with one epoch and one batch. -/
theorem c1_witness :
    (run argsML envRepeat).2 = Except.error (PyError.nameError "loss") ∧
      Event.computeLoss ∉ (run argsML envRepeat).1 ∧
      Event.backward ∉ (run argsML envRepeat).1 ∧
      Event.optimStep ∉ (run argsML envRepeat).1 :=
  c1_metriclearning_loss_undefined argsML envRepeat (by decide) (Or.inl (by decide))
    (by decide) (by decide)

/-- C3 (code bug): on a classification batch of size 2 with targets `[5, 5]`
and both top-1 predictions equal to 5, the scalar the script logs under
`acc` is 2, outside [0,1] — `preds` has shape (B,1), so `preds == target`
broadcasts to shape (B,B) and the comparison count 4 is divided by the batch
size 2 — while the accuracy the spec describes (top-1 predictions equal to
their targets over batch size) is 1, inside [0,1]. -/
theorem c3_logged_acc_out_of_range :
    loggedValues "acc" (run argsBase envRepeat).1 = [(2 : Rat)] ∧
      specAccuracy ((topk1Indices (slOf envRepeat critRepeat batchRepeat).1).map
        (fun r => r.headD 0)) batchRepeat.target = 1 := by
  constructor
  · have h0 : loggedValues "acc" (run argsBase envRepeat).1 =
        [accOf envRepeat critRepeat batchRepeat] := rfl
    have h1 : broadcastEqSum (topk1Indices (slOf envRepeat critRepeat batchRepeat).1)
        batchRepeat.target = 4 := by decide
    have h2 : (yOf envRepeat batchRepeat).length = 2 := by decide
    rw [h0, accOf, h1, h2]
    norm_num
  · have h3 : (topk1Indices (slOf envRepeat critRepeat batchRepeat).1).map
        (fun r => r.headD 0) = [5, 5] := by decide
    rw [h3, show batchRepeat.target = [5, 5] from rfl, specAccuracy]
    norm_num
